import Mathlib

/-!
Shallow embedding of the pointwise quadrature-kernel library of this
repository, and proofs about it.

Sources embedded below:
* `examples/ceed/ex1.okl` — the OCCA kernels `f_build_mass` and
  `f_apply_mass`, modelled at buffer level: the flat input and output
  arrays are functions `ℕ → ℝ`, the offset tables are functions `ℕ → ℕ`,
  and the quadrature-point loop is a fold of per-iteration buffer updates.
* the unnamed OCCA source (`SetupDiff3Rhs`) — modelled at buffer level for
  the same reason; its iteration body both reads and writes the output
  buffer, so the prior buffer contents must be part of the state.
* `examples/navier-stokes/densitycurrent.h` — the QFunctions `ICsDC` and
  `DC`, modelled per quadrature point (field-level), since their loop body
  is a pure function of the per-point field values.
* `examples/shallow-water/shallow-water.h` — the QFunctions `SWICs`,
  `SWExplicit`, `SWImplicit`, `SWJacobian`, modelled per quadrature point.

`CeedScalar` (C `double`) is modelled by `ℝ`; `M_PI` by `Real.pi`; the C
library functions `sin`, `cos`, `exp`, `sqrt`, `pow` by the corresponding
real functions.
-/

noncomputable section

namespace LibCeed

/-! ## f_apply_mass — examples/ceed/ex1.okl, lines 53-64

Loop body: `out[oOf7[0]+i] = in[iOf7[1]+i] * in[iOf7[0]+i];` -/

/-- One iteration `i` of the quadrature-point loop of `f_apply_mass`. -/
def f_apply_mass_step (iOf oOf : ℕ → ℕ) (inp : ℕ → ℝ) (out : ℕ → ℝ) (i : ℕ) :
    ℕ → ℝ :=
  Function.update out (oOf 0 + i) (inp (iOf 1 + i) * inp (iOf 0 + i))

/-- The loop `for (i=0; i<n; i++)` of `f_apply_mass`, iterations applied in
order to the output buffer. -/
def f_apply_massLoop (iOf oOf : ℕ → ℕ) (inp : ℕ → ℝ) : ℕ → (ℕ → ℝ) → ℕ → ℝ
  | 0, out => out
  | n + 1, out => f_apply_mass_step iOf oOf inp (f_apply_massLoop iOf oOf inp n out) n

/-- The `f_apply_mass` kernel: run the loop over all `Q` points. -/
def f_apply_mass (iOf oOf : ℕ → ℕ) (Q : ℕ) (inp out : ℕ → ℝ) : ℕ → ℝ :=
  f_apply_massLoop iOf oOf inp Q out

/-! ## f_build_mass — examples/ceed/ex1.okl, lines 32-50

Loop body reads `dim = ctx[0]`, `space_dim = ctx[1]`,
`dims = dim + 10*space_dim`, then conditionally writes `v[oOf7[0]+i]`
with the 1×1, 2×2 or 3×3 determinant formula times the weight. -/

/-- One iteration `i` of the quadrature-point loop of `f_build_mass`:
the three `if (dims==..)` writes, applied in source order. -/
def f_build_mass_step (ctx : ℕ → ℤ) (Q : ℕ) (iOf oOf : ℕ → ℕ) (u : ℕ → ℝ)
    (v : ℕ → ℝ) (i : ℕ) : ℕ → ℝ :=
  let dim := ctx 0
  let space_dim := ctx 1
  let dims := dim + 10 * space_dim
  let v1 := if dims = 11 then
      Function.update v (oOf 0 + i) (u (iOf 0 + i) * u (iOf 1 + i)) else v
  let v2 := if dims = 22 then
      Function.update v1 (oOf 0 + i)
        ((u (iOf 0 + i + Q * 0) * u (iOf 0 + i + Q * 3) -
          u (iOf 0 + i + Q * 1) * u (iOf 0 + i + Q * 2)) * u (iOf 1 + i)) else v1
  if dims = 33 then
    Function.update v2 (oOf 0 + i)
      ((u (iOf 0 + i + Q * 0) *
          (u (iOf 0 + i + Q * 4) * u (iOf 0 + i + Q * 8) -
           u (iOf 0 + i + Q * 5) * u (iOf 0 + i + Q * 7)) -
        u (iOf 0 + i + Q * 1) *
          (u (iOf 0 + i + Q * 3) * u (iOf 0 + i + Q * 8) -
           u (iOf 0 + i + Q * 5) * u (iOf 0 + i + Q * 6)) +
        u (iOf 0 + i + Q * 2) *
          (u (iOf 0 + i + Q * 3) * u (iOf 0 + i + Q * 7) -
           u (iOf 0 + i + Q * 4) * u (iOf 0 + i + Q * 6))) * u (iOf 1 + i))
  else v2

/-- The loop of `f_build_mass`. -/
def f_build_massLoop (ctx : ℕ → ℤ) (Q : ℕ) (iOf oOf : ℕ → ℕ) (u : ℕ → ℝ) :
    ℕ → (ℕ → ℝ) → ℕ → ℝ
  | 0, v => v
  | n + 1, v => f_build_mass_step ctx Q iOf oOf u (f_build_massLoop ctx Q iOf oOf u n v) n

/-- The `f_build_mass` kernel: run the loop over all `Q` points. -/
def f_build_mass (ctx : ℕ → ℤ) (Q : ℕ) (iOf oOf : ℕ → ℕ) (u v : ℕ → ℝ) :
    ℕ → ℝ :=
  f_build_massLoop ctx Q iOf oOf u Q v

/-- Modelled from the spec: the spec claims the dispatch tag of
`f_build_mass` is `dim*10 + space_dim`.  This variant is identical to
`f_build_mass_step` except that its tag is computed by the spec's formula
`ctx[0]*10 + ctx[1]`; it exists only to be compared against the source
kernel, whose tag (line 43 of ex1.okl) is `dim + 10*space_dim`. -/
def f_build_mass_specTag_step (ctx : ℕ → ℤ) (Q : ℕ) (iOf oOf : ℕ → ℕ)
    (u : ℕ → ℝ) (v : ℕ → ℝ) (i : ℕ) : ℕ → ℝ :=
  let dim := ctx 0
  let space_dim := ctx 1
  let dims := dim * 10 + space_dim
  let v1 := if dims = 11 then
      Function.update v (oOf 0 + i) (u (iOf 0 + i) * u (iOf 1 + i)) else v
  let v2 := if dims = 22 then
      Function.update v1 (oOf 0 + i)
        ((u (iOf 0 + i + Q * 0) * u (iOf 0 + i + Q * 3) -
          u (iOf 0 + i + Q * 1) * u (iOf 0 + i + Q * 2)) * u (iOf 1 + i)) else v1
  if dims = 33 then
    Function.update v2 (oOf 0 + i)
      ((u (iOf 0 + i + Q * 0) *
          (u (iOf 0 + i + Q * 4) * u (iOf 0 + i + Q * 8) -
           u (iOf 0 + i + Q * 5) * u (iOf 0 + i + Q * 7)) -
        u (iOf 0 + i + Q * 1) *
          (u (iOf 0 + i + Q * 3) * u (iOf 0 + i + Q * 8) -
           u (iOf 0 + i + Q * 5) * u (iOf 0 + i + Q * 6)) +
        u (iOf 0 + i + Q * 2) *
          (u (iOf 0 + i + Q * 3) * u (iOf 0 + i + Q * 7) -
           u (iOf 0 + i + Q * 4) * u (iOf 0 + i + Q * 6))) * u (iOf 1 + i))
  else v2

/-- Loop of the spec-tag variant of `f_build_mass`. -/
def f_build_mass_specTagLoop (ctx : ℕ → ℤ) (Q : ℕ) (iOf oOf : ℕ → ℕ)
    (u : ℕ → ℝ) : ℕ → (ℕ → ℝ) → ℕ → ℝ
  | 0, v => v
  | n + 1, v =>
    f_build_mass_specTag_step ctx Q iOf oOf u
      (f_build_mass_specTagLoop ctx Q iOf oOf u n v) n

/-- The spec-tag variant of the `f_build_mass` kernel. -/
def f_build_mass_specTag (ctx : ℕ → ℤ) (Q : ℕ) (iOf oOf : ℕ → ℕ)
    (u v : ℕ → ℝ) : ℕ → ℝ :=
  f_build_mass_specTagLoop ctx Q iOf oOf u Q v

/-! ## SetupDiff3Rhs — the unnamed OCCA source, lines 24-69

Input fields: coordinates `x` at `iOf7[0]` (3 components), Jacobian `J` at
`iOf7[1]` (9 components, column-major `J11 J21 J31 J12 J22 J32 J13 J23 J33`),
quadrature weight `w` at `iOf7[2]`.  Output fields: manufactured target at
`oOf7[0]` (3 components written) and forcing `rhs` at `oOf7[1]`
(3 components written).  The loop body also *reads* the output buffer, at
`out[oOf7[1]+i+0*Q]` (before writing it) and at `out[oOf7[2]+i+0*Q]`
(never written), so the iteration is modelled as a sequence of buffer
updates whose reads go through the current buffer state, exactly as in the
source. -/

/-- `rho` of `SetupDiff3Rhs` (line 60): the quadrature weight
`in[iOf7[2]+i]` times the first-column cofactor contraction
`J11*A11 + J21*A12 + J31*A13` of the 3×3 Jacobian. -/
def SetupDiff3Rhs_rho (iOf : ℕ → ℕ) (Q : ℕ) (inp : ℕ → ℝ) (i : ℕ) : ℝ :=
  let J11 := inp (iOf 1 + i + Q * 0)
  let J21 := inp (iOf 1 + i + Q * 1)
  let J31 := inp (iOf 1 + i + Q * 2)
  let J12 := inp (iOf 1 + i + Q * 3)
  let J22 := inp (iOf 1 + i + Q * 4)
  let J32 := inp (iOf 1 + i + Q * 5)
  let J13 := inp (iOf 1 + i + Q * 6)
  let J23 := inp (iOf 1 + i + Q * 7)
  let J33 := inp (iOf 1 + i + Q * 8)
  let A11 := J22 * J33 - J23 * J32
  let A12 := J13 * J32 - J12 * J33
  let A13 := J12 * J23 - J13 * J22
  inp (iOf 2 + i) * (J11 * A11 + J21 * A12 + J31 * A13)

/-- The triple-sine product of `SetupDiff3Rhs` (lines 54-56 and 63-65),
with phase offsets `c = (0,1,2)` and wavenumbers `k = (1,2,3)`:
`sin(pi*(c0 + k0*x0)) * sin(pi*(c1 + k1*x1)) * sin(pi*(c2 + k2*x2))`. -/
def SetupDiff3Rhs_sines (iOf : ℕ → ℕ) (Q : ℕ) (inp : ℕ → ℝ) (i : ℕ) : ℝ :=
  Real.sin (Real.pi * (0 + 1 * inp (iOf 0 + 0 * Q + i))) *
    Real.sin (Real.pi * (1 + 2 * inp (iOf 0 + 1 * Q + i))) *
    Real.sin (Real.pi * (2 + 3 * inp (iOf 0 + 2 * Q + i)))

/-- One iteration `i` of the quadrature-point loop of `SetupDiff3Rhs`:
the six output writes in source order (lines 54-67); the reads of `out`
in lines 57, 58, 66, 67 see the buffer state current at that write. -/
def SetupDiff3Rhs_step (iOf oOf : ℕ → ℕ) (Q : ℕ) (inp : ℕ → ℝ)
    (out : ℕ → ℝ) (i : ℕ) : ℕ → ℝ :=
  let w1 := Function.update out (oOf 0 + i + 0 * Q)
    (SetupDiff3Rhs_sines iOf Q inp i)
  let w2 := Function.update w1 (oOf 0 + i + 1 * Q) (w1 (oOf 1 + i + 0 * Q))
  let w3 := Function.update w2 (oOf 0 + i + 2 * Q) (w2 (oOf 1 + i + 0 * Q))
  let w4 := Function.update w3 (oOf 1 + i + 0 * Q)
    (SetupDiff3Rhs_rho iOf Q inp i * Real.pi * Real.pi *
      (1 * 1 + 2 * 2 + 3 * 3) * SetupDiff3Rhs_sines iOf Q inp i)
  let w5 := Function.update w4 (oOf 1 + i + 1 * Q) (w4 (oOf 2 + i + 0 * Q))
  Function.update w5 (oOf 1 + i + 2 * Q) (w5 (oOf 2 + i + 0 * Q))

/-- The loop of `SetupDiff3Rhs`. -/
def SetupDiff3RhsLoop (iOf oOf : ℕ → ℕ) (Q : ℕ) (inp : ℕ → ℝ) :
    ℕ → (ℕ → ℝ) → ℕ → ℝ
  | 0, out => out
  | n + 1, out =>
    SetupDiff3Rhs_step iOf oOf Q inp (SetupDiff3RhsLoop iOf oOf Q inp n out) n

/-- The `SetupDiff3Rhs` kernel: run the loop over all `Q` points. -/
def SetupDiff3Rhs (iOf oOf : ℕ → ℕ) (Q : ℕ) (inp out : ℕ → ℝ) : ℕ → ℝ :=
  SetupDiff3RhsLoop iOf oOf Q inp Q out

end LibCeed

namespace LibCeed.DC

/-! ## DC — examples/navier-stokes/densitycurrent.h, lines 209-578

The compressible Navier-Stokes residual QFunction, modelled per quadrature
point.  Per-point inputs: the conserved state `q` (5 components, indexed
`q n = q[n][i]`), the reference-space gradients `dq` (indexed
`dq j n = dq[j][n][i]`, direction-major), and the geometric data `qdata`
(10 components: `wJ` then the row-major 3×3 inverse Jacobian `dXdx`).
The unused coordinate input `in[3]` is carried by the bundled kernel. -/

/-- Context block of `DC` (lines 221-227), read by position. -/
structure Ctx where
  lambda : ℝ
  mu : ℝ
  k : ℝ
  cv : ℝ
  cp : ℝ
  g : ℝ
  Rd : ℝ

/-- `gamma = cp / cv` (line 228). -/
def gamma (c : Ctx) : ℝ := c.cp / c.cv

/-- Mass density `rho = q[0][i]`. -/
def rho (q : ℕ → ℝ) : ℝ := q 0

/-- Velocity `u[j] = q[j+1][i] / rho`. -/
def u (q : ℕ → ℝ) (j : ℕ) : ℝ := q (j + 1) / q 0

/-- Total energy density `E = q[4][i]`. -/
def Etot (q : ℕ → ℝ) : ℝ := q 4

/-- `drho[n] = dq[n][0][i]`. -/
def drho (dq : ℕ → ℕ → ℝ) (n : ℕ) : ℝ := dq n 0

/-- `dU[j][n] = dq[n][j+1][i]`. -/
def dU (dq : ℕ → ℕ → ℝ) (j n : ℕ) : ℝ := dq n (j + 1)

/-- `dE[n] = dq[n][4][i]`. -/
def dE (dq : ℕ → ℕ → ℝ) (n : ℕ) : ℝ := dq n 4

/-- `wJ = qdata[0][i]`. -/
def wJ (qdata : ℕ → ℝ) : ℝ := qdata 0

/-- Inverse coordinate Jacobian `dXdx[j][n] = qdata[1 + 3j + n][i]`. -/
def dXdx (qdata : ℕ → ℝ) (j n : ℕ) : ℝ := qdata (1 + 3 * j + n)

/-- `du[j][n] = (dU[j][n] - drho[n]*u[j]) / rho` (line 286). -/
def du (q : ℕ → ℝ) (dq : ℕ → ℕ → ℝ) (j n : ℕ) : ℝ :=
  (dU dq j n - drho dq n * u q j) / rho q

/-- `drhodx[j] = Σ_n drho[n] * dXdx[n][j]` (line 287). -/
def drhodx (dq : ℕ → ℕ → ℝ) (qdata : ℕ → ℝ) (j : ℕ) : ℝ :=
  drho dq 0 * dXdx qdata 0 j + drho dq 1 * dXdx qdata 1 j +
    drho dq 2 * dXdx qdata 2 j

/-- `dEdx[j] = Σ_n dE[n] * dXdx[n][j]` (line 288). -/
def dEdx (dq : ℕ → ℕ → ℝ) (qdata : ℕ → ℝ) (j : ℕ) : ℝ :=
  dE dq 0 * dXdx qdata 0 j + dE dq 1 * dXdx qdata 1 j +
    dE dq 2 * dXdx qdata 2 j

/-- `dUdx[j][n] = Σ_l dU[j][l] * dXdx[l][n]` (line 293; computed by the
source but not consumed afterwards). -/
def dUdx (dq : ℕ → ℕ → ℝ) (qdata : ℕ → ℝ) (j n : ℕ) : ℝ :=
  dU dq j 0 * dXdx qdata 0 n + dU dq j 1 * dXdx qdata 1 n +
    dU dq j 2 * dXdx qdata 2 n

/-- `dudx[j][n] = Σ_l du[j][l] * dXdx[l][n]` (line 294). -/
def dudx (q : ℕ → ℝ) (dq : ℕ → ℕ → ℝ) (qdata : ℕ → ℝ) (j n : ℕ) : ℝ :=
  du q dq j 0 * dXdx qdata 0 n + du q dq j 1 * dXdx qdata 1 n +
    du q dq j 2 * dXdx qdata 2 n

/-- `dXdxdXdxT[j][n] = Σ_l dXdx[j][l] * dXdx[n][l]` (line 295). -/
def dXdxdXdxT (qdata : ℕ → ℝ) (j n : ℕ) : ℝ :=
  dXdx qdata j 0 * dXdx qdata n 0 + dXdx qdata j 1 * dXdx qdata n 1 +
    dXdx qdata j 2 * dXdx qdata n 2

/-- Temperature gradient `gradT[j]` (lines 300-306). -/
def gradT (c : Ctx) (q : ℕ → ℝ) (dq : ℕ → ℕ → ℝ) (qdata : ℕ → ℝ) (j : ℕ) :
    ℝ :=
  (dEdx dq qdata j / rho q - Etot q * drhodx dq qdata j / (rho q * rho q) -
      (u q 0 * dudx q dq qdata 0 j + u q 1 * dudx q dq qdata 1 j +
        u q 2 * dudx q dq qdata 2 j)) / c.cv

/-- Viscous stress `Fu`, symmetric 3×3 packed as 6 entries in the order
`(11,12,13,22,23,33)` (lines 309-318). -/
def Fu (c : Ctx) (q : ℕ → ℝ) (dq : ℕ → ℕ → ℝ) (qdata : ℕ → ℝ) (n : ℕ) : ℝ :=
  match n with
  | 0 => c.mu * (dudx q dq qdata 0 0 * (2 + c.lambda) +
      c.lambda * (dudx q dq qdata 1 1 + dudx q dq qdata 2 2))
  | 1 => c.mu * (dudx q dq qdata 0 1 + dudx q dq qdata 1 0)
  | 2 => c.mu * (dudx q dq qdata 0 2 + dudx q dq qdata 2 0)
  | 3 => c.mu * (dudx q dq qdata 1 1 * (2 + c.lambda) +
      c.lambda * (dudx q dq qdata 0 0 + dudx q dq qdata 2 2))
  | 4 => c.mu * (dudx q dq qdata 1 2 + dudx q dq qdata 2 1)
  | 5 => c.mu * (dudx q dq qdata 2 2 * (2 + c.lambda) +
      c.lambda * (dudx q dq qdata 0 0 + dudx q dq qdata 1 1))
  | _ => 0

/-- Thermal stress `Fe[n] = u·Fu + k·gradT` (lines 320-326). -/
def Fe (c : Ctx) (q : ℕ → ℝ) (dq : ℕ → ℕ → ℝ) (qdata : ℕ → ℝ) (n : ℕ) : ℝ :=
  match n with
  | 0 => u q 0 * Fu c q dq qdata 0 + u q 1 * Fu c q dq qdata 1 +
      u q 2 * Fu c q dq qdata 2 + c.k * gradT c q dq qdata 0
  | 1 => u q 0 * Fu c q dq qdata 1 + u q 1 * Fu c q dq qdata 3 +
      u q 2 * Fu c q dq qdata 4 + c.k * gradT c q dq qdata 1
  | 2 => u q 0 * Fu c q dq qdata 2 + u q 1 * Fu c q dq qdata 4 +
      u q 2 * Fu c q dq qdata 5 + c.k * gradT c q dq qdata 2
  | _ => 0

/-- Kinetic energy `ke` (line 328). -/
def ke (q : ℕ → ℝ) : ℝ :=
  (u q 0 * u q 0 + u q 1 * u q 1 + u q 2 * u q 2) / 2

/-- Pressure `P = (E - ke*rho) * (gamma - 1)` (line 330). -/
def P (c : Ctx) (q : ℕ → ℝ) : ℝ := (Etot q - ke q * rho q) * (gamma c - 1)

/-- `uX[j] = Σ_n dXdx[j][n] * u[n]` (line 334). -/
def uX (q : ℕ → ℝ) (qdata : ℕ → ℝ) (j : ℕ) : ℝ :=
  dXdx qdata j 0 * u q 0 + dXdx qdata j 1 * u q 1 + dXdx qdata j 2 * u q 2

/-- `uiujgij = Σ_j uX[j]^2` (line 335). -/
def uiujgij (q : ℕ → ℝ) (qdata : ℕ → ℝ) : ℝ :=
  uX q qdata 0 * uX q qdata 0 + uX q qdata 1 * uX q qdata 1 +
    uX q qdata 2 * uX q qdata 2

/-- Convective speed scale `f1 = rho * sqrt(uiujgij)` (line 341). -/
def f1 (q : ℕ → ℝ) (qdata : ℕ → ℝ) : ℝ :=
  rho q * Real.sqrt (uiujgij q qdata)

/-- `TauC = (Cc*f1) / (8*(g11+g22+g33))` with `Cc = 1` (lines 339, 342). -/
def TauC (q : ℕ → ℝ) (qdata : ℕ → ℝ) : ℝ :=
  1 * f1 q qdata /
    (8 * (dXdxdXdxT qdata 0 0 + dXdxdXdxT qdata 1 1 + dXdxdXdxT qdata 2 2))

/-- `TauM = 1 / f1` (line 343). -/
def TauM (q : ℕ → ℝ) (qdata : ℕ → ℝ) : ℝ := 1 / f1 q qdata

/-- `TauE = TauM / (Ce*cv)` with `Ce = 1` (lines 340, 344). -/
def TauE (c : Ctx) (q : ℕ → ℝ) (qdata : ℕ → ℝ) : ℝ :=
  TauM q qdata / (1 * c.cv)

/-- The first convective-residual block of `Stab_Conv`, the parenthesised
factor multiplying `TauM*(u[0]*u[0] - (Rd*ke)/cv)` in lines 348-350; the
same token block recurs verbatim wherever `Stab_Conv` needs the
density-momentum-1 residual. -/
def ResM0 (c : Ctx) (q : ℕ → ℝ) (dq : ℕ → ℕ → ℝ) : ℝ :=
  let u0 := u q 0
  let u1 := u q 1
  let u2 := u q 2
  drho dq 0 * (u0 * u0 - (c.Rd * ke q) / c.cv) - dU dq 0 2 * u2 -
    dU dq 1 1 * u0 - dU dq 2 2 * u0 - dU dq 0 1 * u1 +
    dU dq 0 0 * u0 * (c.Rd / c.cv - 2) + drho dq 1 * u0 * u1 +
    drho dq 2 * u0 * u2 - (c.Rd * dE dq 0) / c.cv +
    (c.Rd * dU dq 1 0 * u1) / c.cv + (c.Rd * dU dq 2 0 * u2) / c.cv

/-- The momentum-2 convective-residual block of `Stab_Conv` (first at
lines 351-353). -/
def ResM1 (c : Ctx) (q : ℕ → ℝ) (dq : ℕ → ℕ → ℝ) : ℝ :=
  let u0 := u q 0
  let u1 := u q 1
  let u2 := u q 2
  drho dq 1 * (u1 * u1 - (c.Rd * ke q) / c.cv) - dU dq 1 0 * u0 -
    dU dq 1 2 * u2 - dU dq 2 2 * u1 - dU dq 0 0 * u1 +
    dU dq 1 1 * u1 * (c.Rd / c.cv - 2) + drho dq 0 * u0 * u1 +
    drho dq 2 * u1 * u2 - (c.Rd * dE dq 1) / c.cv +
    (c.Rd * dU dq 0 1 * u0) / c.cv + (c.Rd * dU dq 2 1 * u2) / c.cv

/-- The momentum-3 convective-residual block of `Stab_Conv` (first at
lines 353-355). -/
def ResM2 (c : Ctx) (q : ℕ → ℝ) (dq : ℕ → ℕ → ℝ) : ℝ :=
  let u0 := u q 0
  let u1 := u q 1
  let u2 := u q 2
  drho dq 2 * (u2 * u2 - (c.Rd * ke q) / c.cv) - dU dq 1 1 * u2 -
    dU dq 2 0 * u0 - dU dq 2 1 * u1 - dU dq 0 0 * u2 +
    dU dq 2 2 * u2 * (c.Rd / c.cv - 2) + drho dq 0 * u0 * u2 +
    drho dq 1 * u1 * u2 - (c.Rd * dE dq 2) / c.cv +
    (c.Rd * dU dq 0 2 * u0) / c.cv + (c.Rd * dU dq 1 2 * u1) / c.cv

/-- The energy convective-residual block of `Stab_Conv` (first at
lines 356-362). -/
def ResE (c : Ctx) (q : ℕ → ℝ) (dq : ℕ → ℕ → ℝ) : ℝ :=
  let u0 := u q 0
  let u1 := u q 1
  let u2 := u q 2
  let E := Etot q
  let keV := ke q
  drho dq 0 * u0 * (E * (c.Rd / c.cv + 1) - (2 * c.Rd * keV) / c.cv) -
    dU dq 1 1 * (E * (c.Rd / c.cv + 1) - (c.Rd * (u1 * u1 + keV)) / c.cv) -
    dU dq 2 2 * (E * (c.Rd / c.cv + 1) - (c.Rd * (u2 * u2 + keV)) / c.cv) -
    dE dq 0 * u0 * (c.Rd / c.cv + 1) - dE dq 1 * u1 * (c.Rd / c.cv + 1) -
    dE dq 2 * u2 * (c.Rd / c.cv + 1) -
    dU dq 0 0 * (E * (c.Rd / c.cv + 1) - (c.Rd * (u0 * u0 + keV)) / c.cv) +
    drho dq 1 * u1 * (E * (c.Rd / c.cv + 1) - (2 * c.Rd * keV) / c.cv) +
    drho dq 2 * u2 * (E * (c.Rd / c.cv + 1) - (2 * c.Rd * keV) / c.cv) +
    (c.Rd * dU dq 0 1 * u0 * u1) / c.cv + (c.Rd * dU dq 0 2 * u0 * u2) / c.cv +
    (c.Rd * dU dq 1 0 * u0 * u1) / c.cv + (c.Rd * dU dq 1 2 * u1 * u2) / c.cv +
    (c.Rd * dU dq 2 0 * u0 * u2) / c.cv + (c.Rd * dU dq 2 1 * u1 * u2) / c.cv

/-- The stabilization matrix `Stab_Conv[j][n]` (lines 348-531), the
streamline-upwind convection block `Ai^T * Tau * (Aj q,j)`: a 5×3 matrix
built from `TauC, TauM, TauE` and the four residual blocks.  The source
computes this matrix but never writes it to any output. -/
def StabConv (c : Ctx) (q : ℕ → ℝ) (dq : ℕ → ℕ → ℝ) (qdata : ℕ → ℝ)
    (j n : ℕ) : ℝ :=
  let u0 := u q 0
  let u1 := u q 1
  let u2 := u q 2
  let E := Etot q
  let keV := ke q
  let tC := TauC q qdata
  let tM := TauM q qdata
  let tE := TauE c q qdata
  let R0 := ResM0 c q dq
  let R1 := ResM1 c q dq
  let R2 := ResM2 c q dq
  let RE := ResE c q dq
  let trdU := dU dq 0 0 + dU dq 1 1 + dU dq 2 2
  match j, n with
  | 0, 0 => tM * (u0 * u0 - (c.Rd * keV) / c.cv) * R0 + tM * u0 * u1 * R1 +
      tM * u0 * u2 * R2 +
      tE * u0 * (E * (c.Rd / c.cv + 1) - (2 * c.Rd * keV) / c.cv) * RE
  | 0, 1 => tM * (u1 * u1 - (c.Rd * keV) / c.cv) * R1 + tM * u0 * u1 * R0 +
      tM * u1 * u2 * R2 +
      tE * u1 * (E * (c.Rd / c.cv + 1) - (2 * c.Rd * keV) / c.cv) * RE
  | 0, 2 => tM * (u2 * u2 - (c.Rd * keV) / c.cv) * R2 + tM * u0 * u2 * R0 +
      tM * u1 * u2 * R1 +
      tE * u2 * (E * (c.Rd / c.cv + 1) - (2 * c.Rd * keV) / c.cv) * RE
  | 1, 0 => tC * trdU - tM * u1 * R1 - tM * u2 * R2 -
      tE * (E * (c.Rd / c.cv + 1) - (c.Rd * (u0 * u0 + keV)) / c.cv) * RE +
      tM * u0 * (c.Rd / c.cv - 2) * R0
  | 1, 1 => (c.Rd * tM * u0 * R1) / c.cv - tM * u1 * R0 +
      (c.Rd * tE * u0 * u1 * RE) / c.cv
  | 1, 2 => (c.Rd * tM * u0 * R2) / c.cv - tM * u2 * R0 +
      (c.Rd * tE * u0 * u2 * RE) / c.cv
  | 2, 0 => (c.Rd * tM * u1 * R0) / c.cv - tM * u0 * R1 +
      (c.Rd * tE * u0 * u1 * RE) / c.cv
  | 2, 1 => tC * trdU - tM * u0 * R0 - tM * u2 * R2 -
      tE * (E * (c.Rd / c.cv + 1) - (c.Rd * (u1 * u1 + keV)) / c.cv) * RE +
      tM * u1 * (c.Rd / c.cv - 2) * R1
  | 2, 2 => (c.Rd * tM * u1 * R2) / c.cv - tM * u2 * R1 +
      (c.Rd * tE * u1 * u2 * RE) / c.cv
  | 3, 0 => (c.Rd * tM * u2 * R0) / c.cv - tM * u0 * R2 +
      (c.Rd * tE * u0 * u2 * RE) / c.cv
  | 3, 1 => (c.Rd * tM * u2 * R1) / c.cv - tM * u1 * R2 +
      (c.Rd * tE * u1 * u2 * RE) / c.cv
  | 3, 2 => tC * trdU - tM * u0 * R0 - tM * u1 * R1 -
      tE * (E * (c.Rd / c.cv + 1) - (c.Rd * (u2 * u2 + keV)) / c.cv) * RE +
      tM * u2 * (c.Rd / c.cv - 2) * R2
  | 4, 0 => -(c.Rd * tM * R0) / c.cv - tE * u0 * (c.Rd / c.cv + 1) * RE
  | 4, 1 => -(c.Rd * tM * R1) / c.cv - tE * u1 * (c.Rd / c.cv + 1) * RE
  | 4, 2 => -(c.Rd * tM * R2) / c.cv - tE * u2 * (c.Rd / c.cv + 1) * RE
  | _, _ => 0

/-- Symmetric-matrix index map `Fuviscidx` (line 551). -/
def Fuviscidx (j n : ℕ) : ℕ :=
  match j, n with
  | 0, 0 => 0
  | 0, 1 => 1
  | 0, 2 => 2
  | 1, 0 => 1
  | 1, 1 => 3
  | 1, 2 => 4
  | 2, 0 => 2
  | 2, 1 => 4
  | 2, 2 => 5
  | _, _ => 0

/-- Density row of the gradient-test output:
`dv[j][0][i] = wJ*(rho*u[0]*dXdx[j][0] + rho*u[1]*dXdx[j][1] +
rho*u[2]*dXdx[j][2])` (lines 537-539). -/
def dv_rho (q : ℕ → ℝ) (qdata : ℕ → ℝ) (j : ℕ) : ℝ :=
  wJ qdata * (rho q * u q 0 * dXdx qdata j 0 + rho q * u q 1 * dXdx qdata j 1 +
    rho q * u q 2 * dXdx qdata j 2)

/-- Momentum rows of the gradient-test output, `dv[n][j+1][i]`: the
advective flux `rho (u × u) + P I3` (lines 545-549) minus the viscous flux
`Fu` (lines 552-556). -/
def dv_mom (c : Ctx) (q : ℕ → ℝ) (dq : ℕ → ℕ → ℝ) (qdata : ℕ → ℝ)
    (j n : ℕ) : ℝ :=
  wJ qdata *
      ((rho q * u q j * u q 0 + (if j = 0 then P c q else 0)) * dXdx qdata n 0 +
        (rho q * u q j * u q 1 + (if j = 1 then P c q else 0)) * dXdx qdata n 1 +
        (rho q * u q j * u q 2 + (if j = 2 then P c q else 0)) * dXdx qdata n 2) -
    wJ qdata *
      (Fu c q dq qdata (Fuviscidx j 0) * dXdx qdata n 0 +
        Fu c q dq qdata (Fuviscidx j 1) * dXdx qdata n 1 +
        Fu c q dq qdata (Fuviscidx j 2) * dXdx qdata n 2)

/-- Energy row of the gradient-test output, `dv[j][4][i]`: the advective
flux `(E + P) u` (lines 564-566) minus the viscous flux `Fe`
(lines 568-570). -/
def dv_E (c : Ctx) (q : ℕ → ℝ) (dq : ℕ → ℕ → ℝ) (qdata : ℕ → ℝ) (j : ℕ) :
    ℝ :=
  wJ qdata * (Etot q + P c q) *
      (u q 0 * dXdx qdata j 0 + u q 1 * dXdx qdata j 1 +
        u q 2 * dXdx qdata j 2) -
    wJ qdata *
      (Fe c q dq qdata 0 * dXdx qdata j 0 + Fe c q dq qdata 1 * dXdx qdata j 1 +
        Fe c q dq qdata 2 * dXdx qdata j 2)

/-- Value-test output `v[n][i]` (lines 541, 558-560, 572): zero for density
and horizontal momentum, the gravity source for vertical momentum and
energy. -/
def v (c : Ctx) (q : ℕ → ℝ) (qdata : ℕ → ℝ) (n : ℕ) : ℝ :=
  match n with
  | 0 => 0
  | 1 => 0
  | 2 => 0
  | 3 => -(rho q) * c.g * wJ qdata
  | 4 => -(rho q) * c.g * u q 2 * wJ qdata
  | _ => 0

/-- Gradient-test output `dv[n][cc][i]` assembled from its rows; the valid
range is `n < 3`, `cc < 5`. -/
def dv (c : Ctx) (q : ℕ → ℝ) (dq : ℕ → ℕ → ℝ) (qdata : ℕ → ℝ)
    (n cc : ℕ) : ℝ :=
  match cc with
  | 0 => dv_rho q qdata n
  | 1 => dv_mom c q dq qdata 0 n
  | 2 => dv_mom c q dq qdata 1 n
  | 3 => dv_mom c q dq qdata 2 n
  | 4 => dv_E c q dq qdata n
  | _ => 0

/-- The bundled `DC` QFunction at one quadrature point: status (the
unconditional `return 0` of line 577), value-test output, gradient-test
output.  The coordinate input `x` (`in[3]`) is declared by the source but
never read. -/
def kernel (c : Ctx) (q : ℕ → ℝ) (dq : ℕ → ℕ → ℝ) (qdata x : ℕ → ℝ) :
    ℤ × (ℕ → ℝ) × (ℕ → ℕ → ℝ) :=
  (0, v c q qdata, fun n cc => dv c q dq qdata n cc)

/-- Concrete context for evaluating `DC`: `lambda = 0`, `mu = 0`, `k = 0`,
`cv = 1`, `cp = 2`, `g = 5`, `Rd = 1`. -/
def ctxEval : Ctx := ⟨0, 0, 0, 1, 2, 5, 1⟩

/-- Concrete state for evaluating `DC`: `rho = 1`, `U = (1,0,0)`, `E = 0`. -/
def qEval : ℕ → ℝ := fun n => if n = 0 then 1 else if n = 1 then 1 else 0

/-- Concrete gradients for evaluating `DC`: `dq[0][1] = 1` (so
`dU[0][0] = 1`), all other entries 0. -/
def dqEval : ℕ → ℕ → ℝ := fun a b => if a = 0 ∧ b = 1 then 1 else 0

/-- Concrete geometric data for evaluating `DC`: `wJ = 1` and `dXdx` the
3×3 identity. -/
def qdEval : ℕ → ℝ := fun n =>
  if n = 0 then 1 else if n = 1 then 1 else if n = 5 then 1 else
    if n = 9 then 1 else 0

/-- Concrete context for the zero-velocity evaluation of `DC`:
`lambda = -2/3`, `mu = 1`, `k = 1`, `cv = 1`, `cp = 2`, `g = 3`, `Rd = 1`. -/
def ctxZero : Ctx := ⟨-2/3, 1, 1, 1, 2, 3, 1⟩

/-- Concrete zero-velocity state: `rho = 2`, `U = 0`, `E = 5`. -/
def qZero : ℕ → ℝ := fun n => if n = 0 then 2 else if n = 4 then 5 else 0

/-- Concrete zero gradients. -/
def dqZero : ℕ → ℕ → ℝ := fun _ _ => 0

/-- Concrete geometric data for the zero-velocity evaluation: `wJ = 7`,
all inverse-Jacobian entries 1. -/
def qdZero : ℕ → ℝ := fun n => if n = 0 then 7 else 1

end LibCeed.DC

namespace LibCeed

open scoped Classical

/-! ## ICsDC — examples/navier-stokes/densitycurrent.h, lines 78-153

Per-point initial-condition QFunction: from coordinates `(x,y,z)` compute
the conserved state `q0` (5 components) and echo the coordinates. -/

/-- Context block of `ICsDC` (lines 92-104): twelve named scalars followed
by the three periodicity flags. -/
structure ICsCtx where
  theta0 : ℝ
  thetaC : ℝ
  P0 : ℝ
  N : ℝ
  cv : ℝ
  cp : ℝ
  Rd : ℝ
  g : ℝ
  rc : ℝ
  lx : ℝ
  ly : ℝ
  lz : ℝ
  periodic : ℕ → ℝ

/-- The `ICsDC` QFunction at one quadrature point: status, conserved
state `q0`, echoed coordinates.  The boundary test uses `tol = 1e-14`; a C
flag `!periodic[n]` is true exactly when `periodic[n] = 0`.  The momentum
components are 0 from the initial conditions (line 130-132) and are set to
0 again on a non-periodic boundary face (lines 136-142). -/
def ICsDC (c : ICsCtx) (x y z : ℝ) : ℤ × (ℕ → ℝ) × (ℕ → ℝ) :=
  let tol : ℝ := 1e-14
  let center : ℕ → ℝ := fun n =>
    if n = 0 then 0.5 * c.lx else if n = 1 then 0.5 * c.ly else 0.5 * c.lz
  let r := Real.sqrt ((x - center 0) ^ 2 + (y - center 1) ^ 2 +
    (z - center 2) ^ 2)
  let deltatheta :=
    if r ≤ c.rc then c.thetaC * (1 + Real.cos (Real.pi * r / c.rc)) / 2 else 0
  let theta := c.theta0 * Real.exp (c.N * c.N * z / c.g) + deltatheta
  let exnerPi := 1 + c.g * c.g * (Real.exp (-(c.N * c.N * z) / c.g) - 1) /
    (c.cp * c.theta0 * c.N * c.N)
  let rho := c.P0 * Real.rpow exnerPi (c.cv / c.Rd) / (c.Rd * theta)
  let bc := (c.periodic 0 = 0 ∧ (abs (x - 0) < tol ∨ abs (x - c.lx) < tol)) ∨
    (c.periodic 1 = 0 ∧ (abs (y - 0) < tol ∨ abs (y - c.ly) < tol)) ∨
    (c.periodic 2 = 0 ∧ (abs (z - 0) < tol ∨ abs (z - c.lz) < tol))
  let q0 : ℕ → ℝ := fun n =>
    match n with
    | 0 => rho
    | 1 => if bc then 0 else 0
    | 2 => if bc then 0 else 0
    | 3 => if bc then 0 else 0
    | 4 => rho * (c.cv * theta * exnerPi)
    | _ => 0
  let coords : ℕ → ℝ := fun n =>
    match n with
    | 0 => x
    | 1 => y
    | 2 => z
    | _ => 0
  (0, q0, coords)

/-! ## Shallow-water QFunctions — examples/shallow-water/shallow-water.h

Per-point models.  State `q` has 3 components; gradients are indexed
`dq (c + 4*d)` for component `c` and direction `d` as in the source;
`qdata` holds `wJ` in slot 0 and `wBJ[0..3]` in slots 1-4.  The
gradient-test output `dv` is indexed `c + 3*d`. -/

/-- `SWICs` (lines 40-82): status, initial state `(u0, v0, h0)`, terrain
`h_s = sin x + cos y`, reference height `H_0 = 0`, echoed coordinates. -/
def SWICs (u0 v0 h0 : ℝ) (x y : ℝ) : ℤ × (ℕ → ℝ) × ℝ × ℝ × (ℕ → ℝ) :=
  (0,
   fun n => match n with
     | 0 => u0
     | 1 => v0
     | 2 => h0
     | _ => 0,
   Real.sin x + Real.cos y,
   0,
   fun n => match n with
     | 0 => x
     | 1 => y
     | _ => 0)

/-- `SWExplicit` (lines 98-158): status, value-test output `v`,
gradient-test output `dv`.  All six `dv` components and the height
component `v[2]` are written as 0 (lines 139-142, 149-150, 152); only
`v[0]` and `v[1]` carry the explicit advection and Coriolis terms. -/
def SWExplicit (f : ℝ) (q dq qdata x : ℕ → ℝ) : ℤ × (ℕ → ℝ) × (ℕ → ℝ) :=
  let u0 := q 0
  let u1 := q 1
  let h := q 2
  let du00 := dq (0 + 4 * 0)
  let du01 := dq (0 + 4 * 1)
  let du10 := dq (1 + 4 * 0)
  let du11 := dq (1 + 4 * 1)
  let dh0 := dq (2 + 4 * 0)
  let dh1 := dq (2 + 4 * 1)
  let wJ := qdata 0
  let wBJ : ℕ → ℝ := fun n => qdata (1 + n)
  let v : ℕ → ℝ := fun n =>
    match n with
    | 0 => -(u0 * du00 + u1 * du01 + f * u1)
    | 1 => -(u0 * du10 + u1 * du11 - f * u0)
    | 2 => 0
    | _ => 0
  let dv : ℕ → ℝ := fun n =>
    match n with
    | 0 => 0
    | 1 => 0
    | 2 => 0
    | 3 => 0
    | 4 => 0
    | 5 => 0
    | _ => 0
  (0, v, dv)

/-- `SWImplicit` (lines 174-240): status, value-test output (all zero),
gradient-test output carrying `g grad(h + h_s)` and `div((h + H_0) u)`. -/
def SWImplicit (g : ℝ) (q dq qdata x h_sq H_0q : ℕ → ℝ) :
    ℤ × (ℕ → ℝ) × (ℕ → ℝ) :=
  let u0 := q 0
  let u1 := q 1
  let h := q 2
  let du00 := dq (0 + 4 * 0)
  let du01 := dq (0 + 4 * 1)
  let du10 := dq (1 + 4 * 0)
  let du11 := dq (1 + 4 * 1)
  let dh0 := dq (2 + 4 * 0)
  let dh1 := dq (2 + 4 * 1)
  let wJ := qdata 0
  let wBJ : ℕ → ℝ := fun n => qdata (1 + n)
  let h_s := h_sq 0
  let H_0 := H_0q 0
  let v : ℕ → ℝ := fun n =>
    match n with
    | 0 => 0
    | 1 => 0
    | 2 => 0
    | _ => 0
  let dv : ℕ → ℝ := fun n =>
    match n with
    | 0 => -(g * (h + h_s) * (wBJ 0 + wBJ 1))
    | 3 => 0
    | 1 => 0
    | 4 => -(g * (h + h_s) * (wBJ 2 + wBJ 3))
    | 2 => -((h + H_0) * (u0 * wBJ 0 + u1 * wBJ 1))
    | 5 => -((h + H_0) * (u0 * wBJ 2 + u1 * wBJ 3))
    | _ => 0
  (0, v, dv)

/-- `SWJacobian` (lines 252-306): status, value-test output (all zero),
gradient-test output carrying the linearized terms. -/
def SWJacobian (g : ℝ) (q dq qdata : ℕ → ℝ) : ℤ × (ℕ → ℝ) × (ℕ → ℝ) :=
  let u0 := q 0
  let u1 := q 1
  let h := q 2
  let du00 := dq (0 + 4 * 0)
  let du01 := dq (0 + 4 * 1)
  let du10 := dq (1 + 4 * 0)
  let du11 := dq (1 + 4 * 1)
  let dh0 := dq (2 + 4 * 0)
  let dh1 := dq (2 + 4 * 1)
  let wBJ : ℕ → ℝ := fun n => qdata (1 + n)
  let v : ℕ → ℝ := fun n =>
    match n with
    | 0 => 0
    | 1 => 0
    | 2 => 0
    | _ => 0
  let dv : ℕ → ℝ := fun n =>
    match n with
    | 0 => -(g * wBJ 0 * dh0)
    | 3 => 0
    | 1 => 0
    | 4 => -(g * wBJ 3 * dh1)
    | 2 => -(du00 * wBJ 0 + u0 * dh0 * wBJ 1)
    | 5 => -(du11 * wBJ 2 + u1 * dh1 * wBJ 3)
    | _ => 0
  (0, v, dv)

end LibCeed

namespace LibCeed

/-! ## Loop lemmas for the ex1.okl kernels -/

theorem f_apply_massLoop_at (iOf oOf : ℕ → ℕ) (inp out : ℕ → ℝ) (n i : ℕ)
    (h : i < n) :
    f_apply_massLoop iOf oOf inp n out (oOf 0 + i) =
      inp (iOf 1 + i) * inp (iOf 0 + i) := by
  induction n with
  | zero => omega
  | succ m ih =>
    by_cases him : i = m
    · subst him
      simp [f_apply_massLoop, f_apply_mass_step]
    · have hlt : i < m := by omega
      have hne : oOf 0 + i ≠ oOf 0 + m := by omega
      simp only [f_apply_massLoop, f_apply_mass_step]
      rw [Function.update_noteq hne]
      exact ih hlt

/-- C7: for every point `i < Q` the `f_apply_mass` kernel writes exactly
`in[iOf7[1]+i] * in[iOf7[0]+i]` (the geometric weight, input field 1, times
the field value, input field 0) to `out[oOf7[0]+i]` — a single real
multiplication. -/
theorem f_apply_mass_pointwise (iOf oOf : ℕ → ℕ) (Q : ℕ) (inp out : ℕ → ℝ)
    (i : ℕ) (h : i < Q) :
    f_apply_mass iOf oOf Q inp out (oOf 0 + i) =
      inp (iOf 1 + i) * inp (iOf 0 + i) :=
  f_apply_massLoop_at iOf oOf inp out Q i h

/-- Witness for `f_apply_mass_pointwise`: Q = 2, point i = 1, value field at
offset 0, weight field at offset 4, output at offset 9, input buffer
`n ↦ n`. -/
theorem f_apply_mass_pointwise_witness :
    f_apply_mass (fun j => 4 * j) (fun _ => 9) 2 (fun n => (n : ℝ)) (fun _ => 0)
      10 = 5 * 1 := by
  have h := f_apply_mass_pointwise (fun j => 4 * j) (fun _ => 9) 2
    (fun n => (n : ℝ)) (fun _ => 0) 1 (by norm_num)
  norm_num at h ⊢
  exact h

theorem f_build_mass_step_other (ctx : ℕ → ℤ) (Q : ℕ) (iOf oOf : ℕ → ℕ)
    (u v : ℕ → ℝ) (i a : ℕ) (h : a ≠ oOf 0 + i) :
    f_build_mass_step ctx Q iOf oOf u v i a = v a := by
  simp only [f_build_mass_step]
  split_ifs <;> simp only [Function.update_noteq h]

theorem f_build_massLoop_preserve (ctx : ℕ → ℤ) (Q : ℕ) (iOf oOf : ℕ → ℕ)
    (u v : ℕ → ℝ) (n a : ℕ) (h : ∀ j, j < n → a ≠ oOf 0 + j) :
    f_build_massLoop ctx Q iOf oOf u n v a = v a := by
  induction n with
  | zero => rfl
  | succ m ih =>
    show f_build_mass_step ctx Q iOf oOf u
        (f_build_massLoop ctx Q iOf oOf u m v) m a = v a
    rw [f_build_mass_step_other ctx Q iOf oOf u _ m _ (h m (by omega))]
    exact ih fun j hj => h j (by omega)

theorem f_build_massLoop_at (ctx : ℕ → ℤ) (Q : ℕ) (iOf oOf : ℕ → ℕ)
    (u v : ℕ → ℝ) (n i : ℕ) (h : i < n) :
    f_build_massLoop ctx Q iOf oOf u n v (oOf 0 + i) =
      (if ctx 0 + 10 * ctx 1 = 33 then
        (u (iOf 0 + i + Q * 0) *
            (u (iOf 0 + i + Q * 4) * u (iOf 0 + i + Q * 8) -
             u (iOf 0 + i + Q * 5) * u (iOf 0 + i + Q * 7)) -
          u (iOf 0 + i + Q * 1) *
            (u (iOf 0 + i + Q * 3) * u (iOf 0 + i + Q * 8) -
             u (iOf 0 + i + Q * 5) * u (iOf 0 + i + Q * 6)) +
          u (iOf 0 + i + Q * 2) *
            (u (iOf 0 + i + Q * 3) * u (iOf 0 + i + Q * 7) -
             u (iOf 0 + i + Q * 4) * u (iOf 0 + i + Q * 6))) * u (iOf 1 + i)
       else if ctx 0 + 10 * ctx 1 = 22 then
        (u (iOf 0 + i + Q * 0) * u (iOf 0 + i + Q * 3) -
          u (iOf 0 + i + Q * 1) * u (iOf 0 + i + Q * 2)) * u (iOf 1 + i)
       else if ctx 0 + 10 * ctx 1 = 11 then
        u (iOf 0 + i) * u (iOf 1 + i)
       else v (oOf 0 + i)) := by
  induction n with
  | zero => omega
  | succ m ih =>
    by_cases him : i = m
    · subst him
      show f_build_mass_step ctx Q iOf oOf u
          (f_build_massLoop ctx Q iOf oOf u i v) i (oOf 0 + i) = _
      simp only [f_build_mass_step]
      by_cases h33 : ctx 0 + 10 * ctx 1 = 33
      · simp [h33]
      · by_cases h22 : ctx 0 + 10 * ctx 1 = 22
        · simp [h33, h22]
        · by_cases h11 : ctx 0 + 10 * ctx 1 = 11
          · simp [h33, h22, h11]
          · simp only [h33, h22, h11, if_false]
            exact f_build_massLoop_preserve ctx Q iOf oOf u v i _
              fun j hj => by omega
    · have hlt : i < m := by omega
      have hne : oOf 0 + i ≠ oOf 0 + m := by omega
      show f_build_mass_step ctx Q iOf oOf u
          (f_build_massLoop ctx Q iOf oOf u m v) m (oOf 0 + i) = _
      rw [f_build_mass_step_other ctx Q iOf oOf u _ m _ hne]
      exact ih hlt

/-- C5: for every point `i < Q` of `f_build_mass`, when the context-derived
tag `dims = ctx[0] + 10*ctx[1]` equals 11 the output is the single Jacobian
entry times the quadrature weight; when it equals 22 the output is the 2×2
determinant `a·d − b·c` of the four Jacobian entries times the weight; when
it equals 33 it is the 3×3 cofactor-expansion determinant of the nine
Jacobian entries times the weight; and an identity 3×3 Jacobian yields
determinant 1, so the output equals the quadrature weight. -/
theorem f_build_mass_branches (ctx : ℕ → ℤ) (Q : ℕ) (iOf oOf : ℕ → ℕ)
    (u v : ℕ → ℝ) (i : ℕ) (h : i < Q) :
    (ctx 0 + 10 * ctx 1 = 11 →
      f_build_mass ctx Q iOf oOf u v (oOf 0 + i) =
        u (iOf 0 + i) * u (iOf 1 + i)) ∧
    (ctx 0 + 10 * ctx 1 = 22 →
      f_build_mass ctx Q iOf oOf u v (oOf 0 + i) =
        (u (iOf 0 + i + Q * 0) * u (iOf 0 + i + Q * 3) -
          u (iOf 0 + i + Q * 1) * u (iOf 0 + i + Q * 2)) * u (iOf 1 + i)) ∧
    (ctx 0 + 10 * ctx 1 = 33 →
      f_build_mass ctx Q iOf oOf u v (oOf 0 + i) =
        (u (iOf 0 + i + Q * 0) *
            (u (iOf 0 + i + Q * 4) * u (iOf 0 + i + Q * 8) -
             u (iOf 0 + i + Q * 5) * u (iOf 0 + i + Q * 7)) -
          u (iOf 0 + i + Q * 1) *
            (u (iOf 0 + i + Q * 3) * u (iOf 0 + i + Q * 8) -
             u (iOf 0 + i + Q * 5) * u (iOf 0 + i + Q * 6)) +
          u (iOf 0 + i + Q * 2) *
            (u (iOf 0 + i + Q * 3) * u (iOf 0 + i + Q * 7) -
             u (iOf 0 + i + Q * 4) * u (iOf 0 + i + Q * 6))) * u (iOf 1 + i)) ∧
    (ctx 0 + 10 * ctx 1 = 33 →
      u (iOf 0 + i + Q * 0) = 1 → u (iOf 0 + i + Q * 4) = 1 →
      u (iOf 0 + i + Q * 8) = 1 → u (iOf 0 + i + Q * 1) = 0 →
      u (iOf 0 + i + Q * 2) = 0 → u (iOf 0 + i + Q * 3) = 0 →
      u (iOf 0 + i + Q * 5) = 0 → u (iOf 0 + i + Q * 6) = 0 →
      u (iOf 0 + i + Q * 7) = 0 →
      f_build_mass ctx Q iOf oOf u v (oOf 0 + i) = u (iOf 1 + i)) := by
  have hloop := f_build_massLoop_at ctx Q iOf oOf u v Q i h
  refine ⟨fun htag => ?_, fun htag => ?_, fun htag => ?_,
    fun htag e1 e2 e3 e4 e5 e6 e7 e8 e9 => ?_⟩
  · rw [f_build_mass, hloop, htag]; norm_num
  · rw [f_build_mass, hloop, htag]; norm_num
  · rw [f_build_mass, hloop, htag]; norm_num
  · rw [f_build_mass, hloop, htag]
    have e1' : u (iOf 0 + i) = 1 := by simpa using e1
    norm_num [e1', e2, e3, e4, e5, e6, e7, e8, e9]

/-- Witness for `f_build_mass_branches`: tag 11 (`ctx = (1,1)`), Q = 1,
i = 0, Jacobian entry at offset 0, weight at offset 1, output at offset 5;
input buffer `n ↦ n + 2`, so the output is `2 * 3 = 6`. -/
theorem f_build_mass_branches_witness :
    f_build_mass (fun _ => 1) 1 (fun n => n) (fun _ => 5)
      (fun n => (n : ℝ) + 2) (fun _ => 0) 5 = 6 := by
  have h := (f_build_mass_branches (fun _ => 1) 1 (fun n => n) (fun _ => 5)
    (fun n => (n : ℝ) + 2) (fun _ => 0) 0 (by norm_num)).1 (by norm_num)
  norm_num at h
  exact h

/-- C8 counterexample: with context `(dim, space_dim) = (12, 1)` the source
kernel dispatches on `dim + 10*space_dim = 22` and writes the 2×2
determinant times the weight (value −8 here), while the spec-tag variant,
which dispatches on `dim*10 + space_dim = 121`, matches no branch and leaves
the output untouched (value 0 here): the dispatch tag is not
`dim*10 + space_dim`. -/
theorem f_build_mass_tag_counterexample :
    f_build_mass (fun n => if n = 0 then 12 else 1) 1
        (fun n => if n = 0 then 0 else 4) (fun _ => 0) (fun n => (n : ℝ))
        (fun _ => 0) 0 = -8 ∧
    f_build_mass_specTag (fun n => if n = 0 then 12 else 1) 1
        (fun n => if n = 0 then 0 else 4) (fun _ => 0) (fun n => (n : ℝ))
        (fun _ => 0) 0 = 0 := by
  constructor
  · norm_num [f_build_mass, f_build_massLoop, f_build_mass_step,
      Function.update]
  · norm_num [f_build_mass_specTag, f_build_mass_specTagLoop,
      f_build_mass_specTag_step]

/-- C8 (amended): the tag on which `f_build_mass` dispatches its determinant
branch equals `dim + 10*space_dim`, where `dim` is `ctx[0]` and `space_dim`
is `ctx[1]`: at every point `i < Q`, if that tag is none of 11, 22, 33 the
point's output element is left untouched, and if it equals 11, 22 or 33 the
corresponding determinant branch is what gets written. -/
theorem f_build_mass_tag_dispatch (ctx : ℕ → ℤ) (Q : ℕ) (iOf oOf : ℕ → ℕ)
    (u v : ℕ → ℝ) (i : ℕ) (h : i < Q) :
    (ctx 0 + 10 * ctx 1 ≠ 11 → ctx 0 + 10 * ctx 1 ≠ 22 →
      ctx 0 + 10 * ctx 1 ≠ 33 →
      f_build_mass ctx Q iOf oOf u v (oOf 0 + i) = v (oOf 0 + i)) ∧
    (ctx 0 + 10 * ctx 1 = 11 →
      f_build_mass ctx Q iOf oOf u v (oOf 0 + i) =
        u (iOf 0 + i) * u (iOf 1 + i)) ∧
    (ctx 0 + 10 * ctx 1 = 22 →
      f_build_mass ctx Q iOf oOf u v (oOf 0 + i) =
        (u (iOf 0 + i + Q * 0) * u (iOf 0 + i + Q * 3) -
          u (iOf 0 + i + Q * 1) * u (iOf 0 + i + Q * 2)) * u (iOf 1 + i)) ∧
    (ctx 0 + 10 * ctx 1 = 33 →
      f_build_mass ctx Q iOf oOf u v (oOf 0 + i) =
        (u (iOf 0 + i + Q * 0) *
            (u (iOf 0 + i + Q * 4) * u (iOf 0 + i + Q * 8) -
             u (iOf 0 + i + Q * 5) * u (iOf 0 + i + Q * 7)) -
          u (iOf 0 + i + Q * 1) *
            (u (iOf 0 + i + Q * 3) * u (iOf 0 + i + Q * 8) -
             u (iOf 0 + i + Q * 5) * u (iOf 0 + i + Q * 6)) +
          u (iOf 0 + i + Q * 2) *
            (u (iOf 0 + i + Q * 3) * u (iOf 0 + i + Q * 7) -
             u (iOf 0 + i + Q * 4) * u (iOf 0 + i + Q * 6))) * u (iOf 1 + i)) := by
  have hloop := f_build_massLoop_at ctx Q iOf oOf u v Q i h
  refine ⟨fun h11 h22 h33 => ?_, fun htag => ?_, fun htag => ?_,
    fun htag => ?_⟩
  · rw [f_build_mass, hloop, if_neg h33, if_neg h22, if_neg h11]
  · rw [f_build_mass, hloop, htag]; norm_num
  · rw [f_build_mass, hloop, htag]; norm_num
  · rw [f_build_mass, hloop, htag]; norm_num

/-- Witness for `f_build_mass_tag_dispatch`: context `(2,1)` gives tag 12,
no branch fires, and the prior output value 42 survives. -/
theorem f_build_mass_tag_dispatch_witness :
    f_build_mass (fun n => if n = 0 then 2 else 1) 1 (fun n => n)
      (fun _ => 0) (fun n => (n : ℝ)) (fun _ => 42) 0 = 42 := by
  have h := (f_build_mass_tag_dispatch (fun n => if n = 0 then 2 else 1) 1
    (fun n => n) (fun _ => 0) (fun n => (n : ℝ)) (fun _ => 42) 0
    (by norm_num)).1 (by norm_num) (by norm_num) (by norm_num)
  norm_num at h
  exact h

/-! ## Loop lemmas for SetupDiff3Rhs -/

theorem SetupDiff3Rhs_step_other (iOf oOf : ℕ → ℕ) (Q : ℕ) (inp out : ℕ → ℝ)
    (i a : ℕ)
    (h1 : a ≠ oOf 0 + i + 0 * Q) (h2 : a ≠ oOf 0 + i + 1 * Q)
    (h3 : a ≠ oOf 0 + i + 2 * Q) (h4 : a ≠ oOf 1 + i + 0 * Q)
    (h5 : a ≠ oOf 1 + i + 1 * Q) (h6 : a ≠ oOf 1 + i + 2 * Q) :
    SetupDiff3Rhs_step iOf oOf Q inp out i a = out a := by
  simp only [SetupDiff3Rhs_step]
  rw [Function.update_noteq h6, Function.update_noteq h5,
    Function.update_noteq h4, Function.update_noteq h3,
    Function.update_noteq h2, Function.update_noteq h1]

theorem SetupDiff3Rhs_step_target0 (iOf oOf : ℕ → ℕ) (Q : ℕ)
    (inp out : ℕ → ℝ) (i : ℕ) (hiQ : i < Q) (hsep : oOf 0 + 3 * Q ≤ oOf 1) :
    SetupDiff3Rhs_step iOf oOf Q inp out i (oOf 0 + i + 0 * Q) =
      SetupDiff3Rhs_sines iOf Q inp i := by
  simp only [SetupDiff3Rhs_step]
  rw [Function.update_noteq (by omega), Function.update_noteq (by omega),
    Function.update_noteq (by omega), Function.update_noteq (by omega),
    Function.update_noteq (by omega), Function.update_same]

theorem SetupDiff3Rhs_step_rhs0 (iOf oOf : ℕ → ℕ) (Q : ℕ)
    (inp out : ℕ → ℝ) (i : ℕ) (hiQ : i < Q) (hsep : oOf 0 + 3 * Q ≤ oOf 1) :
    SetupDiff3Rhs_step iOf oOf Q inp out i (oOf 1 + i + 0 * Q) =
      SetupDiff3Rhs_rho iOf Q inp i * Real.pi * Real.pi *
        (1 * 1 + 2 * 2 + 3 * 3) * SetupDiff3Rhs_sines iOf Q inp i := by
  simp only [SetupDiff3Rhs_step]
  rw [Function.update_noteq (by omega), Function.update_noteq (by omega),
    Function.update_same]

theorem SetupDiff3RhsLoop_at (iOf oOf : ℕ → ℕ) (Q : ℕ) (inp out : ℕ → ℝ)
    (n i : ℕ) (hin : i < n) (hnQ : n ≤ Q) (hsep : oOf 0 + 3 * Q ≤ oOf 1) :
    SetupDiff3RhsLoop iOf oOf Q inp n out (oOf 0 + i + 0 * Q) =
      SetupDiff3Rhs_sines iOf Q inp i ∧
    SetupDiff3RhsLoop iOf oOf Q inp n out (oOf 1 + i + 0 * Q) =
      SetupDiff3Rhs_rho iOf Q inp i * Real.pi * Real.pi *
        (1 * 1 + 2 * 2 + 3 * 3) * SetupDiff3Rhs_sines iOf Q inp i := by
  induction n with
  | zero => omega
  | succ m ih =>
    have hmQ : m < Q := by omega
    by_cases him : i = m
    · subst him
      constructor
      · exact SetupDiff3Rhs_step_target0 iOf oOf Q inp _ i hmQ hsep
      · exact SetupDiff3Rhs_step_rhs0 iOf oOf Q inp _ i hmQ hsep
    · have hlt : i < m := by omega
      have hiQ : i < Q := by omega
      constructor
      · show SetupDiff3Rhs_step iOf oOf Q inp
          (SetupDiff3RhsLoop iOf oOf Q inp m out) m (oOf 0 + i + 0 * Q) = _
        rw [SetupDiff3Rhs_step_other iOf oOf Q inp _ m _ (by omega) (by omega)
          (by omega) (by omega) (by omega) (by omega)]
        exact (ih hlt (by omega)).1
      · show SetupDiff3Rhs_step iOf oOf Q inp
          (SetupDiff3RhsLoop iOf oOf Q inp m out) m (oOf 1 + i + 0 * Q) = _
        rw [SetupDiff3Rhs_step_other iOf oOf Q inp _ m _ (by omega) (by omega)
          (by omega) (by omega) (by omega) (by omega)]
        exact (ih hlt (by omega)).2

/-- C6: at every point `i < Q` of `SetupDiff3Rhs` whose coordinates are
`x = (0.25, 0.25, 0.25)` (and with the target field preceding,
non-overlapping, the forcing field, per the offset-table invariant),
component 0 of the target output equals
`sin(pi*(0 + 1*0.25)) * sin(pi*(1 + 2*0.25)) * sin(pi*(2 + 3*0.25))` to
within 1e-12 (here: exactly), component 0 of the forcing output equals
`rho * pi^2 * (1 + 4 + 9) * target`, and `rho` is the quadrature weight
times the 3×3 Jacobian determinant at that point. -/
theorem SetupDiff3Rhs_manufactured (iOf oOf : ℕ → ℕ) (Q : ℕ)
    (inp out : ℕ → ℝ) (i : ℕ) (hiQ : i < Q) (hsep : oOf 0 + 3 * Q ≤ oOf 1)
    (hx0 : inp (iOf 0 + 0 * Q + i) = 0.25)
    (hx1 : inp (iOf 0 + 1 * Q + i) = 0.25)
    (hx2 : inp (iOf 0 + 2 * Q + i) = 0.25) :
    |SetupDiff3Rhs iOf oOf Q inp out (oOf 0 + i + 0 * Q) -
        Real.sin (Real.pi * (0 + 1 * 0.25)) *
          Real.sin (Real.pi * (1 + 2 * 0.25)) *
          Real.sin (Real.pi * (2 + 3 * 0.25))| ≤ 1e-12 ∧
    SetupDiff3Rhs iOf oOf Q inp out (oOf 1 + i + 0 * Q) =
      SetupDiff3Rhs_rho iOf Q inp i * Real.pi ^ 2 * (1 + 4 + 9) *
        SetupDiff3Rhs iOf oOf Q inp out (oOf 0 + i + 0 * Q) ∧
    SetupDiff3Rhs_rho iOf Q inp i =
      inp (iOf 2 + i) *
        (inp (iOf 1 + i + Q * 0) *
            (inp (iOf 1 + i + Q * 4) * inp (iOf 1 + i + Q * 8) -
             inp (iOf 1 + i + Q * 7) * inp (iOf 1 + i + Q * 5)) -
          inp (iOf 1 + i + Q * 3) *
            (inp (iOf 1 + i + Q * 1) * inp (iOf 1 + i + Q * 8) -
             inp (iOf 1 + i + Q * 7) * inp (iOf 1 + i + Q * 2)) +
          inp (iOf 1 + i + Q * 6) *
            (inp (iOf 1 + i + Q * 1) * inp (iOf 1 + i + Q * 5) -
             inp (iOf 1 + i + Q * 4) * inp (iOf 1 + i + Q * 2))) := by
  have hat := SetupDiff3RhsLoop_at iOf oOf Q inp out Q i hiQ le_rfl hsep
  refine ⟨?_, ?_, ?_⟩
  · rw [SetupDiff3Rhs, hat.1, SetupDiff3Rhs_sines, hx0, hx1, hx2]
    norm_num
  · rw [SetupDiff3Rhs, hat.1, hat.2]
    ring
  · rw [SetupDiff3Rhs_rho]
    ring

/-- Witness for `SetupDiff3Rhs_manufactured`: Q = 1, i = 0, coordinates at
offset 0 with value 0.25, Jacobian at offset 3 with all entries 1 (so the
determinant, hence `rho`, is 0), weight at offset 12 with value 1; outputs
at offsets 0 and 3. -/
theorem SetupDiff3Rhs_manufactured_witness :
    SetupDiff3Rhs (fun n => if n = 0 then 0 else if n = 1 then 3 else 12)
        (fun n => 3 * n) 1 (fun n => if n < 3 then 0.25 else 1) (fun _ => 0)
        ((fun n => 3 * n) 1 + 0 + 0 * 1) =
      SetupDiff3Rhs_rho (fun n => if n = 0 then 0 else if n = 1 then 3 else 12)
          1 (fun n => if n < 3 then 0.25 else 1) 0 * Real.pi ^ 2 * (1 + 4 + 9) *
        SetupDiff3Rhs (fun n => if n = 0 then 0 else if n = 1 then 3 else 12)
          (fun n => 3 * n) 1 (fun n => if n < 3 then 0.25 else 1) (fun _ => 0)
          ((fun n => 3 * n) 0 + 0 + 0 * 1) := by
  have h := SetupDiff3Rhs_manufactured
    (fun n => if n = 0 then 0 else if n = 1 then 3 else 12) (fun n => 3 * n) 1
    (fun n => if n < 3 then 0.25 else 1) (fun _ => 0) 0 (by norm_num)
    (by norm_num) (by norm_num) (by norm_num) (by norm_num)
  exact h.2.1

/-- C3: `SetupDiff3Rhs` is not write-only on the output array: with
identical input buffers but different prior output buffers, the target
component written at `out[oOf7[0]+i+1*Q]` differs, because the iteration
reads `out[oOf7[1]+i+0*Q]` before having written it.  (Q = 1, target field
at offset 0, forcing field at offset 3, third offset 6; all inputs 0.) -/
theorem SetupDiff3Rhs_reads_output :
    SetupDiff3Rhs (fun n => if n = 0 then 0 else if n = 1 then 3 else 12)
        (fun n => 3 * n) 1 (fun _ => 0) (fun _ => 1) 1 = 1 ∧
    SetupDiff3Rhs (fun n => if n = 0 then 0 else if n = 1 then 3 else 12)
        (fun n => 3 * n) 1 (fun _ => 0) (fun _ => 2) 1 = 2 := by
  constructor <;>
    norm_num [SetupDiff3Rhs, SetupDiff3RhsLoop, SetupDiff3Rhs_step,
      Function.update]

/-- C4: `SetupDiff3Rhs` re-invoked on the output buffer left by a first
invocation does not reproduce the first invocation's outputs: with all
inputs 0 and prior output buffer constantly 1, the first invocation leaves
value 1 at the target component `out[oOf7[0]+1*Q]` (copied from the stale
forcing slot), while the second invocation leaves value 0 there (copied
from the forcing slot as rewritten by the first invocation). -/
theorem SetupDiff3Rhs_not_idempotent :
    SetupDiff3Rhs (fun n => if n = 0 then 0 else if n = 1 then 3 else 12)
        (fun n => 3 * n) 1 (fun _ => 0) (fun _ => 1) 1 = 1 ∧
    SetupDiff3Rhs (fun n => if n = 0 then 0 else if n = 1 then 3 else 12)
        (fun n => 3 * n) 1 (fun _ => 0)
        (SetupDiff3Rhs (fun n => if n = 0 then 0 else if n = 1 then 3 else 12)
          (fun n => 3 * n) 1 (fun _ => 0) (fun _ => 1)) 1 = 0 := by
  constructor <;>
    norm_num [SetupDiff3Rhs, SetupDiff3RhsLoop, SetupDiff3Rhs_step,
      SetupDiff3Rhs_rho, Function.update]

end LibCeed

namespace LibCeed.DC

/-! ## Evaluation of the DC kernel at the concrete input
`ctxEval, qEval, dqEval, qdEval` (state `rho = 1`, `u = (1,0,0)`, `E = 0`,
`dU[0][0] = 1`, identity geometry). -/

theorem uEval0 : u qEval 0 = 1 := by norm_num [u, qEval]

theorem uEval1 : u qEval 1 = 0 := by norm_num [u, qEval]

theorem uEval2 : u qEval 2 = 0 := by norm_num [u, qEval]

theorem keEval : ke qEval = 1 / 2 := by
  norm_num [ke, uEval0, uEval1, uEval2]

theorem uiujgijEval : uiujgij qEval qdEval = 1 := by
  norm_num [uiujgij, uX, dXdx, uEval0, uEval1, uEval2, qdEval]

theorem f1Eval : f1 qEval qdEval = 1 := by
  rw [f1, uiujgijEval, Real.sqrt_one]
  norm_num [rho, qEval]

theorem TauCEval : TauC qEval qdEval = 1 / 24 := by
  rw [TauC, f1Eval]
  norm_num [dXdxdXdxT, dXdx, qdEval]

theorem TauMEval : TauM qEval qdEval = 1 := by
  rw [TauM, f1Eval]
  norm_num

theorem TauEEval : TauE ctxEval qEval qdEval = 1 := by
  rw [TauE, TauMEval]
  norm_num [ctxEval]

theorem ResM0Eval : ResM0 ctxEval qEval dqEval = -1 := by
  norm_num [ResM0, uEval0, uEval1, uEval2, keEval, dU, dE, drho, dqEval,
    ctxEval]

theorem ResM1Eval : ResM1 ctxEval qEval dqEval = 0 := by
  norm_num [ResM1, uEval0, uEval1, uEval2, keEval, dU, dE, drho, dqEval,
    ctxEval]

theorem ResM2Eval : ResM2 ctxEval qEval dqEval = 0 := by
  norm_num [ResM2, uEval0, uEval1, uEval2, keEval, dU, dE, drho, dqEval,
    ctxEval]

theorem ResEEval : ResE ctxEval qEval dqEval = 3 / 2 := by
  norm_num [ResE, uEval0, uEval1, uEval2, keEval, Etot, dU, dE, drho, dqEval,
    ctxEval, qEval]

theorem PEval : P ctxEval qEval = -(1 / 2) := by
  norm_num [P, Etot, keEval, rho, gamma, ctxEval, qEval]

theorem FuEvalZero : ∀ n, Fu ctxEval qEval dqEval qdEval n = 0 := by
  intro n
  rcases n with _ | _ | _ | _ | _ | _ | m
  · norm_num [Fu, ctxEval]
  · norm_num [Fu, ctxEval]
  · norm_num [Fu, ctxEval]
  · norm_num [Fu, ctxEval]
  · norm_num [Fu, ctxEval]
  · norm_num [Fu, ctxEval]
  · rfl

/-- C1: the source computes the SUPG stabilization matrix `Stab_Conv`
(nonzero at this input: entry `[1][0]` is 79/24) but never adds it to the
gradient-test output: `dv[0][1]` is exactly the Galerkin
advective-minus-viscous value 1/2, which differs from any value containing
the stabilization entry as an additional contribution. -/
theorem dv_lacks_stabilization :
    StabConv ctxEval qEval dqEval qdEval 1 0 = 79 / 24 ∧
    dv ctxEval qEval dqEval qdEval 0 1 = 1 / 2 ∧
    dv ctxEval qEval dqEval qdEval 0 1 ≠
      1 / 2 + wJ qdEval * StabConv ctxEval qEval dqEval qdEval 1 0 := by
  have harm : StabConv ctxEval qEval dqEval qdEval 1 0 =
      TauC qEval qdEval * (dU dqEval 0 0 + dU dqEval 1 1 + dU dqEval 2 2) -
        TauM qEval qdEval * u qEval 1 * ResM1 ctxEval qEval dqEval -
        TauM qEval qdEval * u qEval 2 * ResM2 ctxEval qEval dqEval -
        TauE ctxEval qEval qdEval *
          (Etot qEval * (ctxEval.Rd / ctxEval.cv + 1) -
            (ctxEval.Rd * (u qEval 0 * u qEval 0 + ke qEval)) / ctxEval.cv) *
          ResE ctxEval qEval dqEval +
        TauM qEval qdEval * u qEval 0 * (ctxEval.Rd / ctxEval.cv - 2) *
          ResM0 ctxEval qEval dqEval := rfl
  have hstab : StabConv ctxEval qEval dqEval qdEval 1 0 = 79 / 24 := by
    rw [harm, TauCEval, TauMEval, TauEEval, ResM0Eval, ResM1Eval, ResM2Eval,
      ResEEval, uEval0, uEval1, uEval2, keEval]
    norm_num [Etot, dU, dqEval, ctxEval, qEval]
  have hdv : dv ctxEval qEval dqEval qdEval 0 1 = 1 / 2 := by
    simp only [dv, dv_mom, Fuviscidx, FuEvalZero, uEval0, uEval1, uEval2,
      PEval]
    norm_num [rho, wJ, dXdx, qEval, qdEval]
  refine ⟨hstab, hdv, ?_⟩
  rw [hstab, hdv]
  norm_num [wJ, qdEval]

/-- C2: at a quadrature point of `DC` with zero velocity (all momentum
components 0, `rho > 0`) and uniform state (all gradients 0), the viscous
fluxes `Fu`, `Fe` vanish identically, every viscous contribution to the
gradient-test output vanishes (the momentum rows reduce to the pure
pressure flux, the density and energy rows to 0), and the value-test output
is exactly `(0, 0, 0, -rho*g*wJ, -rho*g*u_z*wJ = 0)`: only the
hydrostatic/gravity source survives.  Stabilization contributes nothing to
any output (the computed `Stab_Conv` is never written, cf.
`dv_lacks_stabilization`). -/
theorem zero_velocity_conservation (c : Ctx) (q : ℕ → ℝ) (dq : ℕ → ℕ → ℝ)
    (qdata : ℕ → ℝ) (h1 : q 1 = 0) (h2 : q 2 = 0) (h3 : q 3 = 0)
    (h0 : 0 < q 0) (hdq : ∀ a b, dq a b = 0) :
    (∀ n, n < 6 → Fu c q dq qdata n = 0) ∧
    (∀ n, n < 3 → Fe c q dq qdata n = 0) ∧
    v c q qdata 0 = 0 ∧ v c q qdata 1 = 0 ∧ v c q qdata 2 = 0 ∧
    v c q qdata 3 = -(q 0) * c.g * qdata 0 ∧ v c q qdata 4 = 0 ∧
    (∀ n, n < 3 → dv c q dq qdata n 0 = 0) ∧
    (∀ n, n < 3 → dv c q dq qdata n 4 = 0) ∧
    (∀ j n, j < 3 → n < 3 →
      dv c q dq qdata n (j + 1) =
        qdata 0 * ((c.cp / c.cv - 1) * q 4) * qdata (1 + 3 * n + j)) := by
  have hu0 : u q 0 = 0 := by simp [u, h1]
  have hu1 : u q 1 = 0 := by simp [u, h2]
  have hu2 : u q 2 = 0 := by simp [u, h3]
  have hdu : ∀ j n, du q dq j n = 0 := by
    intro j n
    simp [du, dU, drho, hdq]
  have hdudx : ∀ j n, dudx q dq qdata j n = 0 := by
    intro j n
    simp [dudx, hdu]
  have hgT : ∀ j, gradT c q dq qdata j = 0 := by
    intro j
    simp [gradT, dEdx, drhodx, dE, drho, hdq, hdudx]
  have hFu : ∀ n, Fu c q dq qdata n = 0 := by
    intro n
    rcases n with _ | _ | _ | _ | _ | _ | m <;> simp [Fu, hdudx]
  have hFe : ∀ n, Fe c q dq qdata n = 0 := by
    intro n
    rcases n with _ | _ | _ | m <;> simp [Fe, hFu, hgT]
  have hP : P c q = (c.cp / c.cv - 1) * q 4 := by
    simp [P, Etot, ke, gamma, hu0, hu1, hu2, rho]
    ring
  refine ⟨fun n _ => hFu n, fun n _ => hFe n, rfl, rfl, rfl, ?_, ?_, ?_, ?_, ?_⟩
  · simp [v, rho, wJ]
  · simp [v, hu2]
  · intro n _
    simp [dv, dv_rho, hu0, hu1, hu2]
  · intro n _
    simp [dv, dv_E, hu0, hu1, hu2, hFe]
  · intro j n hj _
    interval_cases j <;>
      simp [dv, dv_mom, Fuviscidx, hFu, hu0, hu1, hu2, hP, wJ, dXdx] <;>
      ring

/-- Witness for `zero_velocity_conservation` at `ctxZero, qZero, dqZero,
qdZero` (`rho = 2 > 0`, `E = 5`, `g = 3`, `wJ = 7`): the vertical-momentum
value-test output is `-2*3*7 = -42` and the momentum-1 gradient-test
output in direction 0 is the pure pressure flux `7*((2-1)*5)*1 = 35`. -/
theorem zero_velocity_conservation_witness :
    v ctxZero qZero qdZero 3 = -42 ∧
    dv ctxZero qZero dqZero qdZero 0 1 = 35 := by
  have h := zero_velocity_conservation ctxZero qZero dqZero qdZero rfl rfl rfl
    (by norm_num [qZero]) (fun a b => rfl)
  constructor
  · have hv := h.2.2.2.2.2.1
    rw [hv]
    norm_num [ctxZero, qZero, qdZero]
  · have hdv := h.2.2.2.2.2.2.2.2.2 0 0 (by norm_num) (by norm_num)
    rw [hdv]
    norm_num [ctxZero, qZero, qdZero]

end LibCeed.DC

namespace LibCeed

/-- C9: every status-returning kernel of the library (`ICsDC`, `DC`,
`SWICs`, `SWExplicit`, `SWImplicit`, `SWJacobian`) returns the success
status 0 for every context and every input, including numerically
degenerate ones (zero density, zero convective speed): the `return 0` is
unconditional.  The four OCCA kernels (`f_build_mass`, `f_apply_mass`,
`SetupDiff3Rhs`, `Diff3`) are declared `void` and have no status channel,
so they trivially never raise a failure status either. -/
theorem kernels_always_succeed :
    (∀ (c : ICsCtx) (x y z : ℝ), (ICsDC c x y z).1 = 0) ∧
    (∀ (c : DC.Ctx) (q : ℕ → ℝ) (dq : ℕ → ℕ → ℝ) (qdata x : ℕ → ℝ),
      (DC.kernel c q dq qdata x).1 = 0) ∧
    (∀ u0 v0 h0 x y : ℝ, (SWICs u0 v0 h0 x y).1 = 0) ∧
    (∀ (f : ℝ) (q dq qdata x : ℕ → ℝ), (SWExplicit f q dq qdata x).1 = 0) ∧
    (∀ (g : ℝ) (q dq qdata x h_sq H_0q : ℕ → ℝ),
      (SWImplicit g q dq qdata x h_sq H_0q).1 = 0) ∧
    (∀ (g : ℝ) (q dq qdata : ℕ → ℝ), (SWJacobian g q dq qdata).1 = 0) :=
  ⟨fun _ _ _ _ => rfl, fun _ _ _ _ _ => rfl, fun _ _ _ _ _ => rfl,
    fun _ _ _ _ _ => rfl, fun _ _ _ _ _ _ _ => rfl, fun _ _ _ _ => rfl⟩

/-- C10: for every input and context, `SWExplicit` writes 0 to all six
components `c + 3*d` (`c < 3`, `d < 2`) of the gradient-test output `dv`
and to the height component `v[2]` of the value-test output; only `v[0]`
and `v[1]` can be nonzero. -/
theorem SWExplicit_zero_components (f : ℝ) (q dq qdata x : ℕ → ℝ) (cc d : ℕ)
    (hc : cc < 3) (hd : d < 2) :
    (SWExplicit f q dq qdata x).2.2 (cc + 3 * d) = 0 ∧
    (SWExplicit f q dq qdata x).2.1 2 = 0 := by
  constructor
  · interval_cases cc <;> interval_cases d <;> rfl
  · rfl

/-- Witness for `SWExplicit_zero_components` at component `c = 2`,
direction `d = 1`, with all inputs constantly 1. -/
theorem SWExplicit_zero_components_witness :
    (SWExplicit 1 (fun _ => 1) (fun _ => 1) (fun _ => 1) (fun _ => 1)).2.2
        (2 + 3 * 1) = 0 ∧
    (SWExplicit 1 (fun _ => 1) (fun _ => 1) (fun _ => 1) (fun _ => 1)).2.1
        2 = 0 :=
  SWExplicit_zero_components 1 (fun _ => 1) (fun _ => 1) (fun _ => 1)
    (fun _ => 1) 2 1 (by norm_num) (by norm_num)

end LibCeed
